import Mathlib

/-!
Deterministic DHCPv4 server (`cmd/dhcpserver/main.go`)

A shallow embedding of `DHCPHandler.mapToIp` and `DHCPHandler.ServeDHCP`.

* A Go `[]byte` (`net.IP`, `net.IPMask`, `net.HardwareAddr`) is a `List Nat`; the
  predicate `isBytes` states that every element is below 256.  The only byte
  operations of the program are `^`, `|` and `&`, which never leave that range,
  so no reduction modulo 256 is needed.
* A Go function that may panic returns `Except String α`; the string is the panic
  message.  An index that is out of range is the run-time panic `indexOutOfRange`.
* A `net.IP` result that may be `nil` is an `Option (List Nat)`, `none` being `nil`.
* Calls of `log.Println` have no influence on the results and are left out.
-/

namespace Dhcp4

/-! ## Bytes and the Go built-ins used by the program -/

/-- Every element of the slice is a byte. -/
def isBytes (l : List Nat) : Prop := ∀ x ∈ l, x < 256

instance (l : List Nat) : Decidable (isBytes l) := by
  unfold isBytes; infer_instance

/-- The message of the run-time panic of an index expression out of range. -/
def indexOutOfRange : String := "runtime error: index out of range"

/-- Index expression `s[i]` of Go: a run-time panic when `i` is out of range. -/
def index (s : List Nat) (i : Nat) : Except String Nat :=
  match s[i]? with
  | some b => .ok b
  | none => .error indexOutOfRange

/-- Built-in `make([]byte, n)` of Go: `n` zero bytes. -/
def make (n : Nat) : List Nat := List.replicate n 0

/-- Built-in `copy(dst, src)` of Go: the first `min (len dst) (len src)` elements of
`dst` are overwritten by those of `src`. -/
def copy (dst src : List Nat) : List Nat :=
  src.take dst.length ++ dst.drop src.length

/-- The constant `v4InV6Prefix` of Go's package `net`. -/
def v4InV6Prefix : List Nat := [0, 0, 0, 0, 0, 0, 0, 0, 0, 0, 0xff, 0xff]

/-- Method `net.IP.Equal` of Go's standard library: equal lengths compare bytewise,
and a 4-byte address equals its 16-byte IPv4-in-IPv6 form. -/
def ipEqual (ip x : List Nat) : Bool :=
  if ip.length = x.length then
    decide (ip = x)
  else if ip.length = 4 ∧ x.length = 16 then
    decide (x.take 12 = v4InV6Prefix) && decide (ip = x.drop 12)
  else if ip.length = 16 ∧ x.length = 4 then
    decide (ip.take 12 = v4InV6Prefix) && decide (ip.drop 12 = x)
  else
    false

/-! ## The interface of package `dhcp` -/

/-- Message types of package `dhcp` (the DHCP message type codes of RFC 2132). -/
abbrev MessageType := Nat

def Discover : MessageType := 1
def Offer : MessageType := 2
def Request : MessageType := 3
def Decline : MessageType := 4
def ACK : MessageType := 5
def NAK : MessageType := 6
def Release : MessageType := 7
def Inform : MessageType := 8

/-- Option codes of package `dhcp` (RFC 2132). -/
abbrev OptionCode := Nat

def OptionSubnetMask : OptionCode := 1
def OptionRequestedIPAddress : OptionCode := 50
def OptionServerIdentifier : OptionCode := 54
def OptionParameterRequestList : OptionCode := 55

/-- Type `dhcp.Options`, a Go `map[OptionCode][]byte`: `none` when the key is absent. -/
abbrev Options := OptionCode → Option (List Nat)

/-- Go map index `m[k]` without the `ok` result: the zero value `nil` when absent. -/
def Options.at (m : Options) (k : OptionCode) : List Nat := (m k).getD []

/-- Modelled from the spec: type `dhcp.Packet` and its accessor `CHAddr` belong to
package `dhcp`, which is not part of the sources; the spec's ClientMessage carries the
client hardware address, the only part of the packet the handler reads. -/
structure Packet where
  chaddr : List Nat
  deriving DecidableEq, Repr

/-- One element of the `[]dhcp.Option` list handed to `dhcp.ReplyPacket`. -/
abbrev OptionList := List (OptionCode × List Nat)

/-- Modelled from the spec: `dhcp.ReplyPacket` belongs to package `dhcp`, which is not
part of the sources; the spec's ReplyMessage is the record of type, server identity,
optional assigned address, lease duration and options.  The record keeps the arguments
of the call; `yIAddr = none` is the `nil` address. -/
structure Reply where
  req : Packet
  mt : MessageType
  serverId : List Nat
  yIAddr : Option (List Nat)
  leaseDuration : Int
  options : OptionList
  deriving DecidableEq, Repr

/-- Call `dhcp.ReplyPacket(req, mt, serverId, yIAddr, leaseDuration, options)`. -/
def ReplyPacket (req : Packet) (mt : MessageType) (serverId : List Nat)
    (yIAddr : Option (List Nat)) (leaseDuration : Int) (options : OptionList) : Reply :=
  { req := req, mt := mt, serverId := serverId, yIAddr := yIAddr,
    leaseDuration := leaseDuration, options := options }

/-- Method `dhcp.Options.SelectOrderOrAll` of package `dhcp`, which is not part of the
sources: it is a parameter of the handler.  Its second argument is the parameter request
list of the client, `none` when `nil`. -/
abbrev Selector := Options → Option (List Nat) → OptionList

/-! ## The handler -/

/-- Type `DHCPHandler`; `leaseDuration` is a `time.Duration`. -/
structure DHCPHandler where
  baseHwaddr : List Nat
  baseIP : List Nat
  netmask : List Nat
  serverIP : List Nat
  options : Options
  leaseDuration : Int

/-- First loop of `mapToIp` ("Prefix must match"), over the indices `is`: `false` as
soon as an octet of `chaddr` differs from that of `baseHwaddr`. -/
def prefixLoop (self : DHCPHandler) (chaddr : List Nat) : List Nat → Except String Bool
  | [] => .ok true
  | i :: rest => do
    let b ← index self.baseHwaddr i
    let c ← index chaddr i
    if b ≠ c then
      .ok false
    else
      prefixLoop self chaddr rest

/-- Second loop of `mapToIp` ("Remainder must match"), over the indices `is`:
`delta := baseHwaddr[i] ^ chaddr[i]`, the test of `delta & netmask[i-2]` (which only
logs), and `addr[i-2] = addr[i-2] | delta`. -/
def remainderLoop (self : DHCPHandler) (chaddr : List Nat) :
    List Nat → List Nat → Except String (List Nat)
  | [], addr => .ok addr
  | i :: rest, addr => do
    let b ← index self.baseHwaddr i
    let c ← index chaddr i
    let delta := b ^^^ c
    let m ← index self.netmask (i - 2)
    let _warn := decide ((delta &&& m) ≠ 0)
    let a ← index addr (i - 2)
    remainderLoop self chaddr rest (addr.set (i - 2) (a ||| delta))

/-- Method `DHCPHandler.mapToIp`. -/
def mapToIp (self : DHCPHandler) (chaddr : List Nat) : Except String (Option (List Nat)) :=
  if self.baseIP.length ≠ 4 then
    .error "Unexpected baseIP length"
  else if chaddr.length ≠ 6 then
    .error "Unexpected chaddr length"
  else if self.baseHwaddr.length ≠ 6 then
    .error "Unexpected baseHwaddr length"
  else do
    let addr := copy (make 4) self.baseIP
    let same ← prefixLoop self chaddr [0, 1]
    if !same then
      return none
    let addr ← remainderLoop self chaddr [2, 3, 4, 5] addr
    return some addr

/-- The rest of the `Request` case of `ServeDHCP`, after the test of the server
identifier: an `ACK` for a 4-byte requested address of a mapped client, else a `NAK`. -/
def requestTail (sel : Selector) (self : DHCPHandler) (p : Packet) (options : Options) :
    Except String (Option Reply) := do
  let reqIP := options.at OptionRequestedIPAddress
  if reqIP.length = 4 then
    let ip ← mapToIp self p.chaddr
    if ip.isSome then
      return some (ReplyPacket p ACK self.serverIP
        (some (options.at OptionRequestedIPAddress)) self.leaseDuration
        (sel self.options (options OptionParameterRequestList)))
  return some (ReplyPacket p NAK self.serverIP none 0 [])

/-- Method `DHCPHandler.ServeDHCP`; `none` is the `nil` packet, "no reply". -/
def ServeDHCP (sel : Selector) (self : DHCPHandler) (p : Packet) (msgType : MessageType)
    (options : Options) : Except String (Option Reply) :=
  if msgType = Discover then do
    let ip ← mapToIp self p.chaddr
    match ip with
    | none => return none
    | some ip =>
      return some (ReplyPacket p Offer self.serverIP (some ip) self.leaseDuration
        (sel self.options (options OptionParameterRequestList)))
  else if msgType = Request then
    match options OptionServerIdentifier with
    | some server =>
      if !ipEqual server self.serverIP then
        .ok none
      else
        requestTail sel self p options
    | none => requestTail sel self p options
  else if msgType = Release then
    .ok none
  else if msgType = Decline then
    .ok none
  else
    .ok none

/-- The subnet part of `main` after the parsing of the `subnet` flag: the mask is
recorded as an option to offer, its length is checked, and the address and the mask are
stored in the handler. -/
def setSubnet (handler : DHCPHandler) (options : Options) (ip mask : List Nat) :
    Except String (Options × DHCPHandler) :=
  let options := Function.update options OptionSubnetMask (some mask)
  if mask.length ≠ 4 then
    .error "Unexpected netmask length"
  else
    .ok (options, { handler with baseIP := ip, netmask := mask })

/-! ## Valid configurations -/

/-- The invariants of the spec's ServerConfiguration: `baseIP` and `netmask` have 4
bytes and `baseHwaddr` has 6. -/
def DHCPHandler.valid (self : DHCPHandler) : Prop :=
  self.baseIP.length = 4 ∧ self.netmask.length = 4 ∧ self.baseHwaddr.length = 6

instance (self : DHCPHandler) : Decidable self.valid := by
  unfold DHCPHandler.valid; infer_instance

/-- Octet `i` of a slice, `0` when out of range (used in statements only, where the
lengths are known). -/
def oct (s : List Nat) (i : Nat) : Nat := s.getD i 0

/-- Complement `^x` of a byte. -/
def notByte (x : Nat) : Nat := 255 ^^^ x

/-- The example configuration of the spec: `baseIP = 10.0.0.1`,
`baseHwaddr = AA:BB:00:00:00:00`, `netmask = 255.255.255.0`. -/
def exampleHandler : DHCPHandler :=
  { baseHwaddr := [0xAA, 0xBB, 0, 0, 0, 0], baseIP := [10, 0, 0, 1],
    netmask := [255, 255, 255, 0], serverIP := [10, 0, 0, 254],
    options := fun _ => none, leaseDuration := 86400000000000 }

/-- A selector for examples: no option is selected. -/
def noOptions : Selector := fun _ _ => []

/-- An example `Request` option map: no server identifier, the requested address
192.168.7.7. -/
def requestOptions : Options :=
  fun k => if k = OptionRequestedIPAddress then some [192, 168, 7, 7] else none

/-- An example `Request` option map: the server identifier 10.0.0.77 of another server,
no requested address. -/
def otherServerOptions : Options :=
  fun k => if k = OptionServerIdentifier then some [10, 0, 0, 77] else none

/-- A handler whose three configured slices all have the wrong length. -/
def brokenHandler : DHCPHandler :=
  { baseHwaddr := [0xAA], baseIP := [10, 0], netmask := [], serverIP := [10, 0, 0, 254],
    options := fun _ => none, leaseDuration := 0 }

/-- The address the spec assigns to a hardware address with the managed prefix: octet
`j` is `baseIP[j] OR (baseHwaddr[j+2] XOR hw[j+2])`. -/
def mappedAddr (self : DHCPHandler) (hw : List Nat) : List Nat :=
  (List.range 4).map fun j =>
    oct self.baseIP j ||| (oct self.baseHwaddr (j + 2) ^^^ oct hw (j + 2))

/-! ## Auxiliary lemmas -/

theorem length_four {l : List Nat} (h : l.length = 4) :
    ∃ a b c d, l = [a, b, c, d] := by
  match l, h with
  | [a, b, c, d], _ => exact ⟨a, b, c, d, rfl⟩

theorem length_six {l : List Nat} (h : l.length = 6) :
    ∃ a b c d e f, l = [a, b, c, d, e, f] := by
  match l, h with
  | [a, b, c, d, e, f], _ => exact ⟨a, b, c, d, e, f, rfl⟩

/-- On slices of the right lengths `mapToIp` never panics: it is `nil` when one of the
first two octets differs and the spec's address otherwise. -/
theorem mapToIp_eq (self : DHCPHandler) (hw : List Nat) (hv : self.valid)
    (hlen : hw.length = 6) :
    mapToIp self hw =
      if oct self.baseHwaddr 0 = oct hw 0 ∧ oct self.baseHwaddr 1 = oct hw 1 then
        .ok (some (mappedAddr self hw))
      else
        .ok none := by
  obtain ⟨hip, hmask, hbase⟩ := hv
  obtain ⟨a0, a1, a2, a3, ha⟩ := length_four hip
  obtain ⟨m0, m1, m2, m3, hm⟩ := length_four hmask
  obtain ⟨b0, b1, b2, b3, b4, b5, hb⟩ := length_six hbase
  obtain ⟨c0, c1, c2, c3, c4, c5, hc⟩ := length_six hlen
  subst hc
  by_cases h0 : b0 = c0 <;> by_cases h1 : b1 = c1 <;>
    simp [mapToIp, prefixLoop, remainderLoop, index, copy, make, mappedAddr, oct, ha, hm, hb,
      h0, h1, List.range, List.range.loop, bind, Except.bind, pure, Except.pure]

/-- Bitwise form of the collision condition: two deltas give the same octet exactly when
the hardware octets differ only in bits that are set in the base octet. -/
theorem or_xor_eq_iff (a b h1 h2 : Nat) (hh1 : h1 < 256) (hh2 : h2 < 256) :
    a ||| (b ^^^ h1) = a ||| (b ^^^ h2) ↔ (h1 ^^^ h2) &&& notByte a = 0 := by
  have h255 : (255 : Nat) = 2 ^ 8 - 1 := by norm_num
  have hi1 : ∀ i, 8 ≤ i → h1.testBit i = false := fun i hi =>
    Nat.testBit_lt_two_pow (lt_of_lt_of_le hh1 (by
      calc 256 = 2 ^ 8 := by norm_num
        _ ≤ 2 ^ i := Nat.pow_le_pow_right (by norm_num) hi))
  have hi2 : ∀ i, 8 ≤ i → h2.testBit i = false := fun i hi =>
    Nat.testBit_lt_two_pow (lt_of_lt_of_le hh2 (by
      calc 256 = 2 ^ 8 := by norm_num
        _ ≤ 2 ^ i := Nat.pow_le_pow_right (by norm_num) hi))
  unfold notByte
  constructor
  · intro h
    apply Nat.eq_of_testBit_eq
    intro i
    have hb := congrArg (fun n => Nat.testBit n i) h
    simp only [Nat.testBit_or, Nat.testBit_xor] at hb
    rw [Nat.testBit_and, Nat.testBit_xor, Nat.testBit_xor, h255,
      Nat.testBit_two_pow_sub_one, Nat.zero_testBit]
    by_cases hi : i < 8
    · simp only [hi, decide_True]
      revert hb
      cases a.testBit i <;> cases b.testBit i <;> cases h1.testBit i <;>
        cases h2.testBit i <;> simp
    · rw [hi1 i (by omega), hi2 i (by omega)]
      simp
  · intro h
    apply Nat.eq_of_testBit_eq
    intro i
    have hb := congrArg (fun n => Nat.testBit n i) h
    simp only [Nat.testBit_and, Nat.testBit_xor, h255, Nat.testBit_two_pow_sub_one,
      Nat.zero_testBit] at hb
    rw [Nat.testBit_or, Nat.testBit_or, Nat.testBit_xor, Nat.testBit_xor]
    by_cases hi : i < 8
    · simp only [hi, decide_True] at hb
      revert hb
      cases a.testBit i <;> cases b.testBit i <;> cases h1.testBit i <;>
        cases h2.testBit i <;> simp
    · rw [hi1 i (by omega), hi2 i (by omega)]

/-- Two hardware octets that give the same address octet and differ in no bit that is set
in the base octet are equal. -/
theorem eq_of_or_xor_eq (a b h1 h2 : Nat) (h : a ||| (b ^^^ h1) = a ||| (b ^^^ h2))
    (hd : (h1 ^^^ h2) &&& a = 0) : h1 = h2 := by
  apply Nat.eq_of_testBit_eq
  intro i
  have hb := congrArg (fun n => Nat.testBit n i) h
  have hc := congrArg (fun n => Nat.testBit n i) hd
  simp only [Nat.testBit_or, Nat.testBit_xor, Nat.testBit_and, Nat.zero_testBit] at hb hc
  revert hb hc
  cases a.testBit i <;> cases b.testBit i <;> cases h1.testBit i <;>
    cases h2.testBit i <;> simp

/-- The spec's address, octet by octet. -/
theorem mappedAddr_eq (self : DHCPHandler) (hw : List Nat) :
    mappedAddr self hw =
      [oct self.baseIP 0 ||| (oct self.baseHwaddr 2 ^^^ oct hw 2),
       oct self.baseIP 1 ||| (oct self.baseHwaddr 3 ^^^ oct hw 3),
       oct self.baseIP 2 ||| (oct self.baseHwaddr 4 ^^^ oct hw 4),
       oct self.baseIP 3 ||| (oct self.baseHwaddr 5 ^^^ oct hw 5)] := by
  simp [mappedAddr, List.range, List.range.loop]

/-- A statement about the four octets `j = 0..3`, spelled out. -/
theorem forall_lt_four (P : Nat → Prop) :
    (∀ j, j < 4 → P j) ↔ P 0 ∧ P 1 ∧ P 2 ∧ P 3 := by
  constructor
  · intro h
    exact ⟨h 0 (by omega), h 1 (by omega), h 2 (by omega), h 3 (by omega)⟩
  · rintro ⟨h0, h1, h2, h3⟩ j hj
    have : j = 0 ∨ j = 1 ∨ j = 2 ∨ j = 3 := by omega
    rcases this with rfl | rfl | rfl | rfl <;> assumption

/-- An octet of a slice of bytes is a byte. -/
theorem oct_lt (l : List Nat) (h : isBytes l) (i : Nat) : oct l i < 256 := by
  unfold oct
  rw [List.getD_eq_getElem?_getD]
  cases hi : l[i]? with
  | none => simp
  | some x =>
    simp only [Option.getD_some]
    exact h x (List.getElem?_mem hi)

/-- Two 6-byte slices with the same six octets are equal. -/
theorem eq_of_oct_eq (l1 l2 : List Nat) (h1 : l1.length = 6) (h2 : l2.length = 6)
    (h : ∀ i, i < 6 → oct l1 i = oct l2 i) : l1 = l2 := by
  obtain ⟨a0, a1, a2, a3, a4, a5, rfl⟩ := length_six h1
  obtain ⟨b0, b1, b2, b3, b4, b5, rfl⟩ := length_six h2
  have e0 := h 0 (by omega)
  have e1 := h 1 (by omega)
  have e2 := h 2 (by omega)
  have e3 := h 3 (by omega)
  have e4 := h 4 (by omega)
  have e5 := h 5 (by omega)
  simp [oct] at e0 e1 e2 e3 e4 e5
  simp [e0, e1, e2, e3, e4, e5]

/-! ## The address mapper -/

/-- C1: under a configuration with a 4-byte baseIP, a 4-byte netmask and a 6-byte
baseHwaddr, a 6-byte hardware address whose octets 0 and 1 are those of baseHwaddr is
mapped to the 4-byte address whose octet `j` is `baseIP[j] OR (baseHwaddr[j+2] XOR
hw[j+2])`; the spec's example AA:BB:00:00:00:05 under baseIP 10.0.0.1 gives 10.0.0.5. -/
theorem mapToIp_mapped (self : DHCPHandler) (hw : List Nat) (hv : self.valid)
    (hlen : hw.length = 6) (h0 : oct hw 0 = oct self.baseHwaddr 0)
    (h1 : oct hw 1 = oct self.baseHwaddr 1) :
    (∃ ip, mapToIp self hw = .ok (some ip) ∧ ip.length = 4 ∧
      ∀ j, j < 4 →
        oct ip j = oct self.baseIP j ||| (oct self.baseHwaddr (j + 2) ^^^ oct hw (j + 2))) ∧
    (∀ (sip : List Nat) (opts : Options) (lease : Int),
      mapToIp { baseHwaddr := [0xAA, 0xBB, 0, 0, 0, 0], baseIP := [10, 0, 0, 1],
                netmask := [255, 255, 255, 0], serverIP := sip, options := opts,
                leaseDuration := lease } [0xAA, 0xBB, 0, 0, 0, 5]
        = .ok (some [10, 0, 0, 5])) := by
  refine ⟨⟨mappedAddr self hw, ?_, ?_, ?_⟩, ?_⟩
  · rw [mapToIp_eq self hw hv hlen, if_pos ⟨h0.symm, h1.symm⟩]
  · simp [mappedAddr]
  · rw [forall_lt_four, mappedAddr_eq]
    simp [oct]
  · intro sip opts lease
    have hv : DHCPHandler.valid
        { baseHwaddr := [0xAA, 0xBB, 0, 0, 0, 0], baseIP := [10, 0, 0, 1],
          netmask := [255, 255, 255, 0], serverIP := sip, options := opts,
          leaseDuration := lease } := ⟨rfl, rfl, rfl⟩
    rw [mapToIp_eq _ [0xAA, 0xBB, 0, 0, 0, 5] hv rfl, mappedAddr_eq]
    simp [oct]

/-- Witness of C1: the hardware address AA:BB:01:02:03:04 under the example
configuration. -/
theorem mapToIp_mapped_witness :
    ∃ ip, mapToIp exampleHandler [0xAA, 0xBB, 1, 2, 3, 4] = .ok (some ip) ∧ ip.length = 4 ∧
      ∀ j, j < 4 →
        oct ip j = oct exampleHandler.baseIP j |||
          (oct exampleHandler.baseHwaddr (j + 2) ^^^ oct [0xAA, 0xBB, 1, 2, 3, 4] (j + 2)) :=
  (mapToIp_mapped exampleHandler [0xAA, 0xBB, 1, 2, 3, 4] (by decide) (by decide)
    (by decide) (by decide)).1

/-- C4: the domain check.  Under a valid configuration a 6-byte hardware address whose
octet 0 or octet 1 differs from that of baseHwaddr is unmapped (`nil`), whatever the
other octets, baseIP and the netmask are. -/
theorem mapToIp_outside_domain (self : DHCPHandler) (hw : List Nat) (hv : self.valid)
    (hlen : hw.length = 6)
    (hne : oct hw 0 ≠ oct self.baseHwaddr 0 ∨ oct hw 1 ≠ oct self.baseHwaddr 1) :
    mapToIp self hw = .ok none := by
  rw [mapToIp_eq self hw hv hlen, if_neg]
  rintro ⟨e0, e1⟩
  rcases hne with h | h
  · exact h e0.symm
  · exact h e1.symm

/-- Witness of C4: AA:BC:00:00:00:05 differs from the base in octet 1. -/
theorem mapToIp_outside_domain_witness :
    mapToIp exampleHandler [0xAA, 0xBC, 0, 0, 0, 5] = .ok none :=
  mapToIp_outside_domain exampleHandler [0xAA, 0xBC, 0, 0, 0, 5] (by decide) (by decide)
    (by decide)

/-- Counterexample to C2 as stated: under the spec's example configuration (baseIP
10.0.0.1, netmask 255.255.255.0) the hardware addresses AA:BB:00:00:00:00 and
AA:BB:00:00:00:01 differ only in a bit that the netmask does not cover, and both are
mapped to 10.0.0.1. -/
theorem host_id_separation_counterexample :
    ¬ ∀ (self : DHCPHandler) (hw1 hw2 : List Nat), self.valid →
        hw1.length = 6 → hw2.length = 6 → hw1 ≠ hw2 →
        (oct hw1 0 = oct self.baseHwaddr 0 ∧ oct hw1 1 = oct self.baseHwaddr 1) →
        (oct hw2 0 = oct self.baseHwaddr 0 ∧ oct hw2 1 = oct self.baseHwaddr 1) →
        (∀ j, j < 4 → (oct hw1 (j + 2) ^^^ oct hw2 (j + 2)) &&& oct self.netmask j = 0) →
        mapToIp self hw1 ≠ mapToIp self hw2 := by
  intro h
  refine h exampleHandler [0xAA, 0xBB, 0, 0, 0, 0] [0xAA, 0xBB, 0, 0, 0, 1] (by decide)
    (by decide) (by decide) (by decide) (by decide) (by decide) (by decide) ?_
  rw [mapToIp_eq _ _ (by decide) (by decide), mapToIp_eq _ _ (by decide) (by decide),
    mappedAddr_eq, mappedAddr_eq]
  simp [oct, exampleHandler]

/-- C2, amended: under a valid configuration two distinct 6-byte hardware addresses that
carry the first two octets of baseHwaddr and differ only in bit positions of octets 2..5
where the netmask bit is 0 and the baseIP bit is 0 are mapped to distinct addresses. -/
theorem host_id_separation (self : DHCPHandler) (hw1 hw2 : List Nat) (hv : self.valid)
    (hl1 : hw1.length = 6) (hl2 : hw2.length = 6) (hne : hw1 ≠ hw2)
    (hp1 : oct hw1 0 = oct self.baseHwaddr 0 ∧ oct hw1 1 = oct self.baseHwaddr 1)
    (hp2 : oct hw2 0 = oct self.baseHwaddr 0 ∧ oct hw2 1 = oct self.baseHwaddr 1)
    (_hmask : ∀ j, j < 4 → (oct hw1 (j + 2) ^^^ oct hw2 (j + 2)) &&& oct self.netmask j = 0)
    (hbase : ∀ j, j < 4 → (oct hw1 (j + 2) ^^^ oct hw2 (j + 2)) &&& oct self.baseIP j = 0) :
    mapToIp self hw1 ≠ mapToIp self hw2 := by
  intro heq
  apply hne
  rw [mapToIp_eq self hw1 hv hl1, mapToIp_eq self hw2 hv hl2,
    if_pos ⟨hp1.1.symm, hp1.2.symm⟩, if_pos ⟨hp2.1.symm, hp2.2.symm⟩,
    mappedAddr_eq, mappedAddr_eq] at heq
  simp only [Except.ok.injEq, Option.some.injEq, List.cons.injEq, and_true] at heq
  obtain ⟨e0, e1, e2, e3⟩ := heq
  obtain ⟨d0, d1, d2, d3⟩ := (forall_lt_four _).1 hbase
  apply eq_of_oct_eq hw1 hw2 hl1 hl2
  intro i hi
  have : i = 0 ∨ i = 1 ∨ i = 2 ∨ i = 3 ∨ i = 4 ∨ i = 5 := by omega
  rcases this with rfl | rfl | rfl | rfl | rfl | rfl
  · rw [hp1.1, hp2.1]
  · rw [hp1.2, hp2.2]
  · exact eq_of_or_xor_eq _ _ _ _ e0 d0
  · exact eq_of_or_xor_eq _ _ _ _ e1 d1
  · exact eq_of_or_xor_eq _ _ _ _ e2 d2
  · exact eq_of_or_xor_eq _ _ _ _ e3 d3

/-- Witness of C2, amended: under baseIP 10.0.0.0 the addresses AA:BB:00:00:00:05 and
AA:BB:00:00:00:06 are mapped to distinct addresses. -/
theorem host_id_separation_witness :
    mapToIp { exampleHandler with baseIP := [10, 0, 0, 0] } [0xAA, 0xBB, 0, 0, 0, 5] ≠
      mapToIp { exampleHandler with baseIP := [10, 0, 0, 0] } [0xAA, 0xBB, 0, 0, 0, 6] :=
  host_id_separation { exampleHandler with baseIP := [10, 0, 0, 0] }
    [0xAA, 0xBB, 0, 0, 0, 5] [0xAA, 0xBB, 0, 0, 0, 6] (by decide) (by decide) (by decide)
    (by decide) (by decide) (by decide) (by decide) (by decide)

/-- C10: the exact collision condition.  Under a valid configuration two 6-byte hardware
addresses that carry the first two octets of baseHwaddr are mapped to the same address if
and only if, for every `j = 0..3`, `(hw1[j+2] XOR hw2[j+2]) AND (NOT baseIP[j]) = 0`; the
netmask does not occur in the condition. -/
theorem mapToIp_collision_iff (self : DHCPHandler) (hw1 hw2 : List Nat) (hv : self.valid)
    (hl1 : hw1.length = 6) (hl2 : hw2.length = 6) (hb1 : isBytes hw1) (hb2 : isBytes hw2)
    (hp1 : oct hw1 0 = oct self.baseHwaddr 0 ∧ oct hw1 1 = oct self.baseHwaddr 1)
    (hp2 : oct hw2 0 = oct self.baseHwaddr 0 ∧ oct hw2 1 = oct self.baseHwaddr 1) :
    mapToIp self hw1 = mapToIp self hw2 ↔
      ∀ j, j < 4 →
        (oct hw1 (j + 2) ^^^ oct hw2 (j + 2)) &&& notByte (oct self.baseIP j) = 0 := by
  rw [mapToIp_eq self hw1 hv hl1, mapToIp_eq self hw2 hv hl2,
    if_pos ⟨hp1.1.symm, hp1.2.symm⟩, if_pos ⟨hp2.1.symm, hp2.2.symm⟩,
    mappedAddr_eq, mappedAddr_eq, forall_lt_four]
  simp only [Except.ok.injEq, Option.some.injEq, List.cons.injEq, and_true]
  rw [or_xor_eq_iff _ _ _ _ (oct_lt hw1 hb1 2) (oct_lt hw2 hb2 2),
    or_xor_eq_iff _ _ _ _ (oct_lt hw1 hb1 3) (oct_lt hw2 hb2 3),
    or_xor_eq_iff _ _ _ _ (oct_lt hw1 hb1 4) (oct_lt hw2 hb2 4),
    or_xor_eq_iff _ _ _ _ (oct_lt hw1 hb1 5) (oct_lt hw2 hb2 5)]

/-- Witness of C10: under baseIP 10.0.0.1 the addresses AA:BB:00:00:00:04 and
AA:BB:00:00:00:05 differ only in the bit that baseIP has set, and collide. -/
theorem mapToIp_collision_iff_witness :
    mapToIp exampleHandler [0xAA, 0xBB, 0, 0, 0, 4] =
        mapToIp exampleHandler [0xAA, 0xBB, 0, 0, 0, 5] ∧
      ∀ j, j < 4 →
        (oct [0xAA, 0xBB, 0, 0, 0, 4] (j + 2) ^^^ oct [0xAA, 0xBB, 0, 0, 0, 5] (j + 2)) &&&
          notByte (oct exampleHandler.baseIP j) = 0 :=
  have h := mapToIp_collision_iff exampleHandler [0xAA, 0xBB, 0, 0, 0, 4]
    [0xAA, 0xBB, 0, 0, 0, 5] (by decide) (by decide) (by decide) (by decide) (by decide)
    (by decide) (by decide)
  ⟨h.2 (by decide), by decide⟩

/-- Counterexample to C9 as stated: with a netmask of 5 bytes and the other three lengths
right, `mapToIp` does not panic and returns the address 10.0.0.5. -/
theorem mapToIp_netmask_length_counterexample :
    ¬ ∀ (self : DHCPHandler) (hw : List Nat),
        (self.baseIP.length ≠ 4 ∨ self.netmask.length ≠ 4 ∨ hw.length ≠ 6 ∨
          self.baseHwaddr.length ≠ 6) →
        ∃ msg, mapToIp self hw = .error msg := by
  intro h
  obtain ⟨msg, hmsg⟩ := h { exampleHandler with netmask := [255, 255, 255, 0, 0] }
    [0xAA, 0xBB, 0, 0, 0, 5] (by decide)
  have hok : mapToIp { exampleHandler with netmask := [255, 255, 255, 0, 0] }
      [0xAA, 0xBB, 0, 0, 0, 5] = .ok (some [10, 0, 0, 5]) := rfl
  rw [hok] at hmsg
  exact Except.noConfusion hmsg

/-- C9, amended: `mapToIp` validates three lengths.  When baseIP is not 4 bytes, or the
hardware address is not 6 bytes, or baseHwaddr is not 6 bytes, it panics with the message
of the first failed check and returns neither an address nor `nil`.  The length of the
netmask is checked by `main` when the subnet is configured, which panics on a mask that
is not 4 bytes. -/
theorem mapToIp_length_panics (self : DHCPHandler) (hw : List Nat)
    (h : self.baseIP.length ≠ 4 ∨ hw.length ≠ 6 ∨ self.baseHwaddr.length ≠ 6) :
    (∃ msg, msg ∈ ["Unexpected baseIP length", "Unexpected chaddr length",
        "Unexpected baseHwaddr length"] ∧ mapToIp self hw = .error msg) ∧
    (∀ (handler : DHCPHandler) (options : Options) (ip mask : List Nat),
      mask.length ≠ 4 →
        setSubnet handler options ip mask = .error "Unexpected netmask length") := by
  constructor
  · unfold mapToIp
    by_cases h1 : self.baseIP.length = 4
    · by_cases h2 : hw.length = 6
      · by_cases h3 : self.baseHwaddr.length = 6
        · exact absurd h (by simp [h1, h2, h3])
        · exact ⟨"Unexpected baseHwaddr length", by simp, by simp [h1, h2, h3]⟩
      · exact ⟨"Unexpected chaddr length", by simp, by simp [h1, h2]⟩
    · exact ⟨"Unexpected baseIP length", by simp, by simp [h1]⟩
  · intro handler options ip mask hm
    simp [setSubnet, hm]

/-- Witness of C9, amended: a hardware address of 5 bytes under the example
configuration. -/
theorem mapToIp_length_panics_witness :
    ∃ msg, msg ∈ ["Unexpected baseIP length", "Unexpected chaddr length",
        "Unexpected baseHwaddr length"] ∧
      mapToIp exampleHandler [0xAA, 0xBB, 0, 0, 5] = .error msg :=
  (mapToIp_length_panics exampleHandler [0xAA, 0xBB, 0, 0, 5] (by decide)).1

/-! ## The message handler -/

/-- Bytes of equal length are equal as addresses exactly when they are equal. -/
theorem ipEqual_of_length_eq (ip x : List Nat) (h : ip.length = x.length) :
    ipEqual ip x = decide (ip = x) := by
  simp [ipEqual, h]

/-- Counterexample to C3 as stated: a `Request` without Requested-IP option that names
another server (Server-Identifier 10.0.0.77, serverIP 10.0.0.254) gets no reply, not a
Nak. -/
theorem request_without_requested_ip_counterexample :
    ¬ ∀ (sel : Selector) (self : DHCPHandler) (p : Packet) (options : Options),
        options OptionRequestedIPAddress = none →
        ServeDHCP sel self p Request options =
          .ok (some (ReplyPacket p NAK self.serverIP none 0 [])) := by
  intro h
  have h1 := h noOptions exampleHandler ⟨[0xAA, 0xBB, 0, 0, 0, 5]⟩ otherServerOptions
    (by decide)
  have h2 : ServeDHCP noOptions exampleHandler ⟨[0xAA, 0xBB, 0, 0, 0, 5]⟩ Request
      otherServerOptions = .ok none := rfl
  rw [h2] at h1
  simp at h1

/-- C3, amended: a `Request` that carries no Requested-IP option and whose
Server-Identifier option is absent or equal to serverIP is answered by a Nak with no
assigned address and zero lease duration, whatever its other options, its hardware
address and the configuration are. -/
theorem request_without_requested_ip (sel : Selector) (self : DHCPHandler) (p : Packet)
    (options : Options) (hreq : options OptionRequestedIPAddress = none)
    (hsrv : options OptionServerIdentifier = none ∨
      ∃ server, options OptionServerIdentifier = some server ∧
        (server = self.serverIP ∨ ipEqual server self.serverIP = true)) :
    ServeDHCP sel self p Request options =
      .ok (some (ReplyPacket p NAK self.serverIP none 0 [])) := by
  have htail : requestTail sel self p options =
      .ok (some (ReplyPacket p NAK self.serverIP none 0 [])) := by
    simp [requestTail, Options.at, hreq, bind, Except.bind, pure, Except.pure]
  rcases hsrv with hs | ⟨server, hs, hsame⟩
  · simp [ServeDHCP, Request, Discover, hs, htail]
  · have he : ipEqual server self.serverIP = true := by
      rcases hsame with h | h
      · rw [ipEqual_of_length_eq _ _ (by rw [h])]
        simpa using h
      · exact h
    simp [ServeDHCP, Request, Discover, hs, he, htail]

/-- Witness of C3, amended: a `Request` with an empty option map to a handler whose
configuration would make `mapToIp` panic. -/
theorem request_without_requested_ip_witness :
    ServeDHCP noOptions brokenHandler ⟨[0xAA, 0xBB, 0, 0, 0, 5]⟩ Request (fun _ => none) =
      .ok (some (ReplyPacket ⟨[0xAA, 0xBB, 0, 0, 0, 5]⟩ NAK brokenHandler.serverIP none 0
        [])) :=
  request_without_requested_ip noOptions brokenHandler ⟨[0xAA, 0xBB, 0, 0, 0, 5]⟩
    (fun _ => none) rfl (Or.inl rfl)

/-- C5: a `Request` that carries a Server-Identifier option whose value differs from
serverIP (as compared by `net.IP.Equal`; for a value of the length of serverIP, as
bytes) gets no reply, whatever the Requested-IP option, the hardware address and the configuration
are: `mapToIp` is not consulted, so that none of its panics can occur. -/
theorem request_for_other_server (sel : Selector) (self : DHCPHandler) (p : Packet)
    (options : Options) (server : List Nat)
    (hs : options OptionServerIdentifier = some server)
    (hne : ipEqual server self.serverIP = false ∨
      (server.length = self.serverIP.length ∧ server ≠ self.serverIP)) :
    ServeDHCP sel self p Request options = .ok none := by
  have he : ipEqual server self.serverIP = false := by
    rcases hne with h | ⟨hl, hn⟩
    · exact h
    · rw [ipEqual_of_length_eq _ _ hl]
      simpa using hn
  simp [ServeDHCP, Request, Discover, hs, he]

/-- Witness of C5: a `Request` naming the server 10.0.0.77 to the handler with serverIP
10.0.0.254 whose configuration would make `mapToIp` panic. -/
theorem request_for_other_server_witness :
    ServeDHCP noOptions brokenHandler ⟨[0xAA, 0xBB, 0, 0, 0, 5]⟩ Request otherServerOptions =
      .ok none :=
  request_for_other_server noOptions brokenHandler ⟨[0xAA, 0xBB, 0, 0, 0, 5]⟩
    otherServerOptions [10, 0, 0, 77] rfl (Or.inr (by decide))

/-- C6: a `Request` whose Server-Identifier option is absent or equal to serverIP, whose
Requested-IP option has exactly 4 bytes and whose hardware address is mapped under a
valid configuration is answered by an Ack that names serverIP, the configured lease
duration and, as assigned address, the requested address itself, whether or not it is
the address `mapToIp` computes. -/
theorem request_ack (sel : Selector) (self : DHCPHandler) (p : Packet) (options : Options)
    (reqIP ip : List Nat) (_hv : self.valid)
    (hsrv : options OptionServerIdentifier = none ∨
      ∃ server, options OptionServerIdentifier = some server ∧
        (server = self.serverIP ∨ ipEqual server self.serverIP = true))
    (hreq : options OptionRequestedIPAddress = some reqIP) (hlen : reqIP.length = 4)
    (hmap : mapToIp self p.chaddr = .ok (some ip)) :
    ServeDHCP sel self p Request options =
      .ok (some (ReplyPacket p ACK self.serverIP (some reqIP) self.leaseDuration
        (sel self.options (options OptionParameterRequestList)))) := by
  have htail : requestTail sel self p options =
      .ok (some (ReplyPacket p ACK self.serverIP (some reqIP) self.leaseDuration
        (sel self.options (options OptionParameterRequestList)))) := by
    simp [requestTail, Options.at, hreq, hlen, hmap, bind, Except.bind, pure, Except.pure]
  rcases hsrv with hs | ⟨server, hs, hsame⟩
  · simp [ServeDHCP, Request, Discover, hs, htail]
  · have he : ipEqual server self.serverIP = true := by
      rcases hsame with h | h
      · rw [ipEqual_of_length_eq _ _ (by rw [h])]
        simpa using h
      · exact h
    simp [ServeDHCP, Request, Discover, hs, he, htail]

/-- Witness of C6: the client AA:BB:00:00:00:05, which is mapped to 10.0.0.5, requests
192.168.7.7 and is acknowledged 192.168.7.7. -/
theorem request_ack_witness :
    mapToIp exampleHandler [0xAA, 0xBB, 0, 0, 0, 5] = .ok (some [10, 0, 0, 5]) ∧
    ServeDHCP noOptions exampleHandler ⟨[0xAA, 0xBB, 0, 0, 0, 5]⟩ Request requestOptions =
      .ok (some (ReplyPacket ⟨[0xAA, 0xBB, 0, 0, 0, 5]⟩ ACK [10, 0, 0, 254]
        (some [192, 168, 7, 7]) 86400000000000 [])) :=
  have hmap : mapToIp exampleHandler [0xAA, 0xBB, 0, 0, 0, 5] = .ok (some [10, 0, 0, 5]) := by
    rw [mapToIp_eq _ _ (by decide) (by decide), mappedAddr_eq]
    simp [oct, exampleHandler]
  ⟨hmap, request_ack noOptions exampleHandler ⟨[0xAA, 0xBB, 0, 0, 0, 5]⟩ requestOptions
    [192, 168, 7, 7] [10, 0, 0, 5] (by decide) (Or.inl rfl) rfl rfl hmap⟩

/-- C7: for a `Discover` with a 6-byte hardware address under a valid configuration the
reply is determined by `mapToIp`: no reply when the address is unmapped, and otherwise
an Offer that names serverIP, the mapped address and the configured lease duration. -/
theorem discover_reply (sel : Selector) (self : DHCPHandler) (p : Packet)
    (options : Options) (hv : self.valid) (hlen : p.chaddr.length = 6) :
    (mapToIp self p.chaddr = .ok none ∧ ServeDHCP sel self p Discover options = .ok none) ∨
    (∃ ip, mapToIp self p.chaddr = .ok (some ip) ∧
      ServeDHCP sel self p Discover options =
        .ok (some (ReplyPacket p Offer self.serverIP (some ip) self.leaseDuration
          (sel self.options (options OptionParameterRequestList))))) := by
  have hmap := mapToIp_eq self p.chaddr hv hlen
  split_ifs at hmap with hpre
  · right
    exact ⟨_, hmap, by simp [ServeDHCP, hmap, bind, Except.bind, pure, Except.pure]⟩
  · left
    exact ⟨hmap, by simp [ServeDHCP, hmap, bind, Except.bind, pure, Except.pure]⟩

/-- Witness of C7: the client AA:BB:00:00:00:05 is offered 10.0.0.5. -/
theorem discover_reply_witness :
    (mapToIp exampleHandler [0xAA, 0xBB, 0, 0, 0, 5] = .ok none ∧
      ServeDHCP noOptions exampleHandler ⟨[0xAA, 0xBB, 0, 0, 0, 5]⟩ Discover (fun _ => none)
        = .ok none) ∨
    (∃ ip, mapToIp exampleHandler [0xAA, 0xBB, 0, 0, 0, 5] = .ok (some ip) ∧
      ServeDHCP noOptions exampleHandler ⟨[0xAA, 0xBB, 0, 0, 0, 5]⟩ Discover (fun _ => none)
        = .ok (some (ReplyPacket ⟨[0xAA, 0xBB, 0, 0, 0, 5]⟩ Offer exampleHandler.serverIP
            (some ip) exampleHandler.leaseDuration
            (noOptions exampleHandler.options none)))) :=
  discover_reply noOptions exampleHandler ⟨[0xAA, 0xBB, 0, 0, 0, 5]⟩ (fun _ => none)
    (by decide) (by decide)

/-- C8: a message of type Release or Decline, and of any type other than Discover and
Request, gets no reply and does not fail, for any options, any hardware address (also
one that is not 6 bytes) and any configuration (also one with slices of the wrong
length): `mapToIp` is not reached. -/
theorem no_reply_for_other_types (sel : Selector) (self : DHCPHandler) (p : Packet)
    (msgType : MessageType) (options : Options)
    (h : msgType = Release ∨ msgType = Decline ∨
      (msgType ≠ Discover ∧ msgType ≠ Request)) :
    ServeDHCP sel self p msgType options = .ok none := by
  have hd : msgType ≠ Discover := by
    rcases h with rfl | rfl | ⟨h1, _⟩
    · decide
    · decide
    · exact h1
  have hr : msgType ≠ Request := by
    rcases h with rfl | rfl | ⟨_, h2⟩
    · decide
    · decide
    · exact h2
  simp [ServeDHCP, hd, hr]

/-- Witness of C8: a Release with a 1-byte hardware address to the handler whose
configuration would make `mapToIp` panic. -/
theorem no_reply_for_other_types_witness :
    ServeDHCP noOptions brokenHandler ⟨[0xAA]⟩ Release requestOptions = .ok none :=
  no_reply_for_other_types noOptions brokenHandler ⟨[0xAA]⟩ Release requestOptions
    (Or.inl rfl)

end Dhcp4
